import Mathlib

/-!
Verification development for the slash-command dispatch and meeting-start
decision engine of the Mattermost Zoom plugin (`server/command.go`).

The collaborator calls made by the command handlers (chat-platform user and
channel lookups, the preference store, the Zoom provider API, posting) are
external; they are modelled as oracle fields of an `Env` record giving the
result each call would return, and every side-effecting call is recorded in
an explicit `Effect` trace, in program order.  Go `error` values are
modelled as `Option String` (with `none` for `nil`).
-/

/-- A chat-platform user, as consumed by the command handlers: an opaque
identifier plus the system-admin flag used by `canConnect`. -/
structure User where
  id : String
  isSystemAdmin : Bool
  deriving DecidableEq, Repr

/-- The resolved Zoom identity of a user; the command code only consumes its
personal meeting id (`Pmi`, a Go `int`). -/
structure ZoomUser where
  pmi : Int
  deriving DecidableEq, Repr

/-- The slice of `model.CommandArgs` the handlers read. -/
structure CommandArgs where
  command : String
  userId : String
  channelId : String
  rootId : String
  deriving DecidableEq, Repr

/-- The error value returned by `authenticateAndFetchZoomUser`: the Go code
reads its `.Message` and `.Err` fields. -/
structure AuthError where
  message : String
  err : Option String
  deriving DecidableEq, Repr

/-- Result of `checkPreviousMessages`: whether a recent meeting was found in
the channel, and its link, creator name and provider. -/
structure RecentMeeting where
  found : Bool
  link : String
  creatorName : String
  provider : String
  deriving DecidableEq, Repr

/-- One side-effecting collaborator call, as recorded in the trace. -/
inductive Effect where
  | storeOAuthUserState (userID channelID : String) (isAccountLevelFlow : Bool)
  | logWarn (msg : String)
  | askUserPMIMeeting (userID channelID : String)
  | createMeetingWithoutPMI (userID channelID topic : String)
  | postConfirm (link channelID topic userID rootID creatorName provider : String)
  | postMeeting (userID : String) (meetingID : Int) (channelID rootID topic : String)
  | trackMeetingStart (userID source : String)
  | trackDisconnect (userID : String)
  | updatePreferences (userID category name value : String)
  deriving DecidableEq, Repr

/-- Oracle environment: the outcome each external collaborator call would
produce during one command invocation.  `Option String` fields are the error
returned by the call (`none` = success); `checkPreviousMessages`,
`getPMISettingData` and `getUser` are `none` when the call fails. -/
structure Env where
  getUser : Option User
  channelMemberOk : Bool
  checkPreviousMessages : Option RecentMeeting
  authResult : Except AuthError ZoomUser
  storeOAuthUserStateResult : Option String
  getPMISettingData : Option String
  createMeetingResult : Int × Option String
  postMeetingResult : Option String
  enableOAuth : Bool
  accountLevelApp : Bool
  superuserTokenPresent : Bool
  fetchOAuthUserInfoOk : Bool
  updatePreferencesOk : Bool
  siteURL : String
  removeSuperUserTokenResult : Option String
  disconnectOAuthUserResult : Option String
  deriving Repr

/-- Constant from `command.go`. -/
def alreadyConnectedText : String := "Already connected"

/-- Constant from `command.go`. -/
def zoomPreferenceCategory : String := "plugin:zoom"

/-- Constant from `command.go`. -/
def zoomPMISettingName : String := "use-pmi"

/-- Constant from `command.go`. -/
def zoomPMISettingValueAsk : String := "ask"

/-- Constant from `command.go`. -/
def preferenceUpdateError : String := "Cannot update preference in zoom setting"

/-- Constant from `command.go`. -/
def actionConnect : String := "connect"

/-- Constant from `command.go`. -/
def actionStart : String := "start"

/-- Constant from `command.go`. -/
def actionDisconnect : String := "disconnect"

/-- Constant from `command.go`. -/
def actionHelp : String := "help"

/-- Modelled from the spec: the string constant `trueString` (declared
outside `command.go`) compared against the stored PMI preference. -/
def trueString : String := "true"

/-- Modelled from the spec: the string constant `falseString` (declared
outside `command.go`) accepted as a PMI preference value. -/
def falseString : String := "false"

/-- Modelled from the spec: the constant default meeting topic (declared
outside `command.go`) always passed to meeting creation and posting by
`runStartCommand`. -/
def defaultMeetingTopic : String := "Zoom Meeting"

/-- Modelled from the spec: the telemetry source tag for command-initiated
meetings (declared outside `command.go`); the spec fixes it to "command". -/
def telemetryStartSourceCommand : String := "command"

/-- Model of Go `strings.Fields`: split on maximal runs of whitespace,
producing no empty tokens.  Structural recursion over the character list;
the accumulator holds the current token reversed. -/
def fieldsAux : List Char → List Char → List String
  | [], acc => if acc = [] then [] else [String.mk acc.reverse]
  | c :: cs, acc =>
    if c.isWhitespace then
      if acc = [] then fieldsAux cs []
      else String.mk acc.reverse :: fieldsAux cs []
    else fieldsAux cs (c :: acc)

/-- `stringsFields s` models `strings.Fields(s)` (whitespace per
`Char.isWhitespace`, modelling `unicode.IsSpace`). -/
def stringsFields (s : String) : List String :=
  fieldsAux s.data []

/-- Model of Go `strings.Join(elems, " ")`. -/
def stringsJoinSpace : List String → String
  | [] => ""
  | [x] => x
  | x :: y :: xs => x ++ " " ++ stringsJoinSpace (y :: xs)

/-- `parseCommand` from `command.go`.  Go indexes `split[0]` without a
guard, so a raw command with zero whitespace-delimited tokens panics at
runtime; the panic is modelled as `none`. -/
def parseCommand (rawCommand : String) : Option (String × String × String) :=
  match stringsFields rawCommand with
  | [] => none
  | cmd :: rest =>
    let action := match rest with
      | [] => ""
      | a :: _ => a
    let topic := if action = actionStart
      then stringsJoinSpace ((cmd :: rest).drop 2)
      else ""
    some (cmd, action, topic)

/-- `canConnect` from `command.go`; `OAuthEnabled()` is modelled from the
spec as the deployment flag "OAuth is enabled". -/
def canConnect (env : Env) (user : User) : Bool :=
  env.enableOAuth && (!env.accountLevelApp || user.isSystemAdmin)

/-- The PMI-preference phase of `runStartCommand` (`command.go` lines
149-165): reads the stored preference and yields the decided
`(meetingID, createMeetingErr)` pair together with the effects it emitted.
`meetingID` starts at the `-1` sentinel. -/
def pmiDecision (env : Env) (user : User) (zoomUser : ZoomUser) (args : CommandArgs) :
    Int × Option String × List Effect :=
  match env.getPMISettingData with
  | some userPMISettingPref =>
    if userPMISettingPref = "" ∨ userPMISettingPref = zoomPMISettingValueAsk then
      (-1, none, [Effect.askUserPMIMeeting user.id args.channelId])
    else if userPMISettingPref = trueString then
      (zoomUser.pmi, none, [])
    else
      (env.createMeetingResult.1, env.createMeetingResult.2,
        [Effect.createMeetingWithoutPMI user.id args.channelId defaultMeetingTopic])
  | none => (-1, none, [Effect.askUserPMIMeeting user.id args.channelId])

/-- The final post-and-track phase of `runStartCommand` (`command.go` lines
166-178), applied to the decided `(meetingID, createMeetingErr)` pair and
the effects already emitted. -/
def finishStart (env : Env) (args : CommandArgs) (user : User)
    (meetingID : Int) (createMeetingErr : Option String) (effs : List Effect) :
    (String × Option String) × List Effect :=
  if meetingID = -1 ∧ createMeetingErr = none then
    (("", none), effs)
  else if meetingID = -1 ∨ createMeetingErr ≠ none then
    (("", some "error while create new meeting"), effs)
  else
    match env.postMeetingResult with
    | some postMeetingErr =>
      (("", some postMeetingErr),
        effs ++ [Effect.postMeeting user.id meetingID args.channelId args.rootId defaultMeetingTopic])
    | none =>
      (("", none),
        effs ++ [Effect.postMeeting user.id meetingID args.channelId args.rootId defaultMeetingTopic,
          Effect.trackMeetingStart args.userId telemetryStartSourceCommand])

/-- `runStartCommand` from `command.go`: membership guard, recent-meeting
guard, auth guard, PMI-preference phase (`pmiDecision`), then the
post-and-track phase (`finishStart`). -/
def runStartCommand (env : Env) (args : CommandArgs) (user : User) (topic : String) :
    (String × Option String) × List Effect :=
  if !env.channelMemberOk then
    (("We could not get channel members (channelId: " ++ args.channelId ++ ")", none), [])
  else
    match env.checkPreviousMessages with
    | none => (("Error checking previous messages", none), [])
    | some recent =>
      if recent.found then
        (("", none),
          [Effect.postConfirm recent.link args.channelId topic user.id args.rootId
            recent.creatorName recent.provider])
      else
        match env.authResult with
        | Except.error authErr =>
          ((authErr.message, authErr.err),
            Effect.storeOAuthUserState user.id args.channelId false ::
              (match env.storeOAuthUserStateResult with
                | some _ => [Effect.logWarn "failed to store user state"]
                | none => []))
        | Except.ok zoomUser =>
          let d := pmiDecision env user zoomUser args
          finishStart env args user d.1 d.2.1 d.2.2

/-- Modelled from the spec: the OAuth prompt message (format string
`zoom.OAuthPrompt`, declared outside `command.go`) containing the
deployment site URL. -/
def oAuthPromptMsg (siteURL : String) : String :=
  "Click here to connect your Zoom account: " ++ siteURL

/-- `runConnectCommand` from `command.go`: permission gate, then the
account-level or user-level branch; each branch short-circuits when already
connected, otherwise records pending OAuth state (aborting with a wrapped
error when the store fails) and returns the OAuth prompt. -/
def runConnectCommand (env : Env) (user : User) (extra : CommandArgs) :
    (String × Option String) × List Effect :=
  if !canConnect env user then
    (("Unknown action `connect`", none), [])
  else
    let oauthMsg := oAuthPromptMsg env.siteURL
    if env.accountLevelApp then
      if env.superuserTokenPresent then
        ((alreadyConnectedText, none), [])
      else
        match env.storeOAuthUserStateResult with
        | some appErr =>
          (("", some ("cannot store state: " ++ appErr)),
            [Effect.storeOAuthUserState user.id extra.channelId true])
        | none =>
          ((oauthMsg, none), [Effect.storeOAuthUserState user.id extra.channelId true])
    else
      if env.fetchOAuthUserInfoOk then
        ((alreadyConnectedText, none), [])
      else
        match env.storeOAuthUserStateResult with
        | some appErr =>
          (("", some ("cannot store state: " ++ appErr)),
            [Effect.storeOAuthUserState user.id extra.channelId true])
        | none =>
          ((oauthMsg, none), [Effect.storeOAuthUserState user.id extra.channelId true])

/-- `runDisconnectCommand` from `command.go`. -/
def runDisconnectCommand (env : Env) (user : User) :
    (String × Option String) × List Effect :=
  if !canConnect env user then
    (("Unknown action `disconnect`", none), [])
  else if env.accountLevelApp then
    match env.removeSuperUserTokenResult with
    | some e => (("Error disconnecting, " ++ e, none), [])
    | none => (("Successfully disconnected from Zoom.", none), [])
  else
    match env.disconnectOAuthUserResult with
    | some e => (("Could not disconnect OAuth from zoom, " ++ e, none), [])
    | none => (("User disconnected from Zoom.", none), [Effect.trackDisconnect user.id])

/-- Constant from `command.go`. -/
def starterText : String :=
  "###### Mattermost Zoom Plugin - Slash Command Help\n"

/-- Constant from `command.go` (pipes are replaced by backquotes before
display). -/
def helpText : String := "* |/zoom start| - Start a zoom meeting"

/-- Constant from `command.go`. -/
def oAuthHelpText : String := "* |/zoom disconnect| - Disconnect from zoom"

/-- Constant from `command.go`. -/
def settingHelpText : String := "* |/zoom setting| - Configure setting options"

/-- Constant from `command.go`. -/
def settingPMIHelpText : String :=
  "* |/zoom setting use_pmi [true/false/ask]| - \n\t\tenable / disable / undecide to use PMI to create meeting\n\t"

/-- Model of `strings.ReplaceAll(s, "|", "&#96;")`: replace every pipe by a
backquote (character 96). -/
def replaceBar (s : String) : String :=
  String.mk (s.data.map (fun c => if c = '|' then Char.ofNat 96 else c))

/-- `runHelpCommand` from `command.go`. -/
def runHelpCommand (env : Env) : (String × Option String) × List Effect :=
  let text := starterText ++ replaceBar (helpText ++ settingHelpText)
  let text := if env.enableOAuth then text ++ "\n" ++ replaceBar oAuthHelpText else text
  ((text, none), [])

/-- `runPMISettingCommand` from `command.go`: validates the value, writes
the preference, and maps a failed write to the fixed error message. -/
def runPMISettingCommand (env : Env) (usePMIValue : String) (user : User) :
    (String × Option String) × List Effect :=
  if usePMIValue = trueString ∨ usePMIValue = falseString ∨
      usePMIValue = zoomPMISettingValueAsk then
    if env.updatePreferencesOk then
      (("Update successfully, use_pmi: " ++ usePMIValue, none),
        [Effect.updatePreferences user.id zoomPreferenceCategory zoomPMISettingName usePMIValue])
    else
      ((preferenceUpdateError, none),
        [Effect.updatePreferences user.id zoomPreferenceCategory zoomPMISettingName usePMIValue])
  else
    (("Unknown setting option " ++ usePMIValue, none), [])

/-- `runSettingCommand` from `command.go`. -/
def runSettingCommand (env : Env) (settingArgs : List String) (user : User) :
    (String × Option String) × List Effect :=
  let settingAction := match settingArgs with
    | [] => ""
    | a :: _ => a
  if settingAction = "use_pmi" then
    match settingArgs with
    | _ :: v :: _ => runPMISettingCommand env v user
    | _ => (("Set PMI option to \"true\"|\"false\"|\"ask\"", none), [])
  else if settingAction = "" then
    ((replaceBar (starterText ++ settingPMIHelpText), none), [])
  else
    (("Unknown Action " ++ settingAction, none), [])

/-- An apostrophe character, for building user-facing messages. -/
def apostrophe : String := String.mk [Char.ofNat 39]

/-- `executeCommand` from `command.go`: parse, check the trigger, require an
action, resolve the user, dispatch.  `parseCommand` (and hence this
function) panics on a zero-token command string, modelled as `none`. -/
def executeCommand (env : Env) (args : CommandArgs) :
    Option ((String × Option String) × List Effect) :=
  match parseCommand args.command with
  | none => none
  | some (cmd, action, topic) =>
    if cmd ≠ "/zoom" then
      some (("Command " ++ apostrophe ++ cmd ++ apostrophe ++
        " is not /zoom. Please try again.", none), [])
    else if action = "" then
      some (("Please specify an action for /zoom command.", none), [])
    else
      match env.getUser with
      | none =>
        some (("We could not retrieve user (userId: " ++ args.userId ++ ")", none), [])
      | some user =>
        if action = actionConnect then
          some (runConnectCommand env user args)
        else if action = actionStart then
          some (runStartCommand env args user topic)
        else if action = actionDisconnect then
          some (runDisconnectCommand env user)
        else if action = actionHelp ∨ action = "" then
          some (runHelpCommand env)
        else if action = "setting" then
          some (runSettingCommand env ((stringsFields args.command).drop 2) user)
        else
          some (("Unknown action " ++ action, none), [])

/-- Recognises a provider meeting-creation call in the trace. -/
def isCreateEffect : Effect → Bool
  | Effect.createMeetingWithoutPMI _ _ _ => true
  | _ => false

/-- Recognises an ask-prompt side effect in the trace. -/
def isAskEffect : Effect → Bool
  | Effect.askUserPMIMeeting _ _ => true
  | _ => false

/-- Recognises a meeting-announcement post in the trace. -/
def isPostMeetingEffect : Effect → Bool
  | Effect.postMeeting _ _ _ _ _ => true
  | _ => false

/-- Recognises a confirmation post in the trace. -/
def isPostConfirmEffect : Effect → Bool
  | Effect.postConfirm _ _ _ _ _ _ _ => true
  | _ => false

/-- Recognises a start-telemetry emission in the trace. -/
def isTrackEffect : Effect → Bool
  | Effect.trackMeetingStart _ _ => true
  | _ => false

/-- Recognises a pending-connection store in the trace. -/
def isStoreStateEffect : Effect → Bool
  | Effect.storeOAuthUserState _ _ _ => true
  | _ => false

/-- Recognises a preference write in the trace. -/
def isUpdatePrefEffect : Effect → Bool
  | Effect.updatePreferences _ _ _ _ => true
  | _ => false

/-- Sample fixture: a non-admin user. -/
def sampleUser : User := { id := "user1", isSystemAdmin := false }

/-- Sample fixture: an admin user. -/
def adminUser : User := { id := "admin1", isSystemAdmin := true }

/-- Sample fixture: a Zoom identity with PMI 777. -/
def sampleZoomUser : ZoomUser := { pmi := 777 }

/-- Sample fixture: no recent meeting in the channel. -/
def sampleRecent : RecentMeeting :=
  { found := false, link := "", creatorName := "", provider := "" }

/-- Sample fixture: a recent meeting found in the channel. -/
def foundRecent : RecentMeeting :=
  { found := true, link := "https://zoom.us/j/42", creatorName := "alice", provider := "Zoom" }

/-- Sample fixture: command arguments for a start invocation. -/
def sampleArgs : CommandArgs :=
  { command := "/zoom start team sync", userId := "user1", channelId := "chan1", rootId := "" }

/-- Sample fixture: every collaborator call succeeds, the user is
authenticated, the stored PMI preference is "false". -/
def envBase : Env :=
  { getUser := some sampleUser
    channelMemberOk := true
    checkPreviousMessages := some sampleRecent
    authResult := Except.ok sampleZoomUser
    storeOAuthUserStateResult := none
    getPMISettingData := some falseString
    createMeetingResult := (123, none)
    postMeetingResult := none
    enableOAuth := true
    accountLevelApp := false
    superuserTokenPresent := false
    fetchOAuthUserInfoOk := false
    updatePreferencesOk := true
    siteURL := "https://mm.example.com"
    removeSuperUserTokenResult := none
    disconnectOAuthUserResult := none }

/-- Every token produced by `fieldsAux` is a non-empty string. -/
theorem fieldsAux_ne_empty :
    ∀ (cs acc : List Char), ∀ t ∈ fieldsAux cs acc, t ≠ "" := by
  intro cs
  induction cs with
  | nil =>
    intro acc t ht
    unfold fieldsAux at ht
    by_cases hacc : acc = []
    · simp [hacc] at ht
    · simp [hacc] at ht
      intro hcontra
      rw [ht] at hcontra
      have hdata : acc.reverse = ([] : List Char) := congrArg String.data hcontra
      exact hacc (List.reverse_eq_nil_iff.mp hdata)
  | cons c cs ih =>
    intro acc t ht
    unfold fieldsAux at ht
    by_cases hws : c.isWhitespace
    · simp only [hws, if_true] at ht
      by_cases hacc : acc = []
      · simp only [hacc, if_pos rfl] at ht
        exact ih [] t ht
      · simp only [if_neg hacc] at ht
        rcases List.mem_cons.mp ht with h1 | h2
        · intro hcontra
          rw [h1] at hcontra
          have hdata : acc.reverse = ([] : List Char) := congrArg String.data hcontra
          exact hacc (List.reverse_eq_nil_iff.mp hdata)
        · exact ih [] t h2
    · simp only [hws, if_false] at ht
      exact ih (c :: acc) t ht

/-- Every token produced by `stringsFields` is a non-empty string. -/
theorem mem_stringsFields_ne_empty (s : String) (t : String)
    (ht : t ∈ stringsFields s) : t ≠ "" :=
  fieldsAux_ne_empty s.data [] t ht

/-- Joining a token list whose head is non-empty yields a non-empty string. -/
theorem stringsJoinSpace_ne_empty (t : String) (ts : List String) (h : t ≠ "") :
    stringsJoinSpace (t :: ts) ≠ "" := by
  cases ts with
  | nil => simpa [stringsJoinSpace] using h
  | cons y ys =>
    intro hcontra
    have hstep : stringsJoinSpace (t :: y :: ys) = t ++ " " ++ stringsJoinSpace (y :: ys) := rfl
    rw [hstep] at hcontra
    have hlen := congrArg String.length hcontra
    rw [String.length_append, String.length_append] at hlen
    have h1 : (" ").length = 1 := rfl
    have h0 : ("" : String).length = 0 := rfl
    omega

/-- Counting with a predicate false on posts and telemetry passes through
`finishStart` unchanged. -/
theorem countP_finishStart (env : Env) (args : CommandArgs) (user : User)
    (mid : Int) (err : Option String) (effs : List Effect) (p : Effect → Bool)
    (hpost : ∀ uid m cid rid t, p (Effect.postMeeting uid m cid rid t) = false)
    (htrack : ∀ uid s, p (Effect.trackMeetingStart uid s) = false) :
    ((finishStart env args user mid err effs).2).countP p = effs.countP p := by
  unfold finishStart
  split
  · rfl
  · split
    · rfl
    · cases hpm : env.postMeetingResult with
      | some e => simp [List.countP_append, List.countP_cons, hpost]
      | none => simp [List.countP_append, List.countP_cons, hpost, htrack]

/-- Effects already emitted survive `finishStart`. -/
theorem mem_finishStart_of_mem (env : Env) (args : CommandArgs) (user : User)
    (mid : Int) (err : Option String) (effs : List Effect) (x : Effect)
    (hx : x ∈ effs) : x ∈ (finishStart env args user mid err effs).2 := by
  unfold finishStart
  split
  · exact hx
  · split
    · exact hx
    · cases env.postMeetingResult with
      | some e => exact List.mem_append_left _ hx
      | none => exact List.mem_append_left _ hx

/-- Every effect in the output of `finishStart` is an already-emitted
effect, an announcement post, or a telemetry emission. -/
theorem mem_finishStart (env : Env) (args : CommandArgs) (user : User)
    (mid : Int) (err : Option String) (effs : List Effect) (x : Effect)
    (hx : x ∈ (finishStart env args user mid err effs).2) :
    x ∈ effs ∨ isPostMeetingEffect x = true ∨ isTrackEffect x = true := by
  unfold finishStart at hx
  split at hx
  · exact Or.inl hx
  · split at hx
    · exact Or.inl hx
    · cases hpm : env.postMeetingResult with
      | some e =>
        rw [hpm] at hx
        have hx' : x ∈ effs ++
            [Effect.postMeeting user.id mid args.channelId args.rootId defaultMeetingTopic] := hx
        rcases List.mem_append.mp hx' with h1 | h2
        · exact Or.inl h1
        · simp at h2
          subst h2
          exact Or.inr (Or.inl rfl)
      | none =>
        rw [hpm] at hx
        have hx' : x ∈ effs ++
            [Effect.postMeeting user.id mid args.channelId args.rootId defaultMeetingTopic,
              Effect.trackMeetingStart args.userId telemetryStartSourceCommand] := hx
        rcases List.mem_append.mp hx' with h1 | h2
        · exact Or.inl h1
        · rcases List.mem_cons.mp h2 with h3 | h4
          · subst h3
            exact Or.inr (Or.inl rfl)
          · simp at h4
            subst h4
            exact Or.inr (Or.inr rfl)

/-- `finishStart` on the `-1` sentinel with no creation error: silent
no-op return. -/
theorem finishStart_sentinel (env : Env) (args : CommandArgs) (user : User)
    (mid : Int) (err : Option String) (effs : List Effect)
    (h1 : mid = -1) (h2 : err = none) :
    finishStart env args user mid err effs = (("", none), effs) := by
  unfold finishStart
  rw [if_pos ⟨h1, h2⟩]

/-- `finishStart` with a creation error: the generic creation error is
returned (whatever the meeting id), and nothing is posted. -/
theorem finishStart_error (env : Env) (args : CommandArgs) (user : User)
    (mid : Int) (err : Option String) (effs : List Effect)
    (h : err ≠ none) :
    finishStart env args user mid err effs =
      (("", some "error while create new meeting"), effs) := by
  unfold finishStart
  rw [if_neg (fun hc => h hc.2), if_pos (Or.inr h)]

/-- `finishStart` with a concrete meeting id, no creation error, and a
successful announcement post: post then track. -/
theorem finishStart_post_ok (env : Env) (args : CommandArgs) (user : User)
    (mid : Int) (err : Option String) (effs : List Effect)
    (h1 : mid ≠ -1) (h2 : err = none) (hp : env.postMeetingResult = none) :
    finishStart env args user mid err effs =
      (("", none),
        effs ++ [Effect.postMeeting user.id mid args.channelId args.rootId defaultMeetingTopic,
          Effect.trackMeetingStart args.userId telemetryStartSourceCommand]) := by
  unfold finishStart
  rw [if_neg (fun hc => h1 hc.1), if_neg (by
    intro hc
    rcases hc with hc | hc
    · exact h1 hc
    · exact hc h2), hp]

/-- `finishStart` with a concrete meeting id, no creation error, and a
failing announcement post: the post error is propagated and no telemetry
is emitted. -/
theorem finishStart_post_err (env : Env) (args : CommandArgs) (user : User)
    (mid : Int) (err : Option String) (effs : List Effect) (e : String)
    (h1 : mid ≠ -1) (h2 : err = none) (hp : env.postMeetingResult = some e) :
    finishStart env args user mid err effs =
      (("", some e),
        effs ++ [Effect.postMeeting user.id mid args.channelId args.rootId defaultMeetingTopic]) := by
  unfold finishStart
  rw [if_neg (fun hc => h1 hc.1), if_neg (by
    intro hc
    rcases hc with hc | hc
    · exact h1 hc
    · exact hc h2), hp]

/-- `pmiDecision` on an unset/ask preference or a failed lookup: sentinel
meeting id, no error, one ask prompt. -/
theorem pmiDecision_ask (env : Env) (user : User) (zu : ZoomUser) (args : CommandArgs)
    (h : env.getPMISettingData = none ∨ env.getPMISettingData = some "" ∨
      env.getPMISettingData = some zoomPMISettingValueAsk) :
    pmiDecision env user zu args =
      (-1, none, [Effect.askUserPMIMeeting user.id args.channelId]) := by
  rcases h with h | h | h
  · simp [pmiDecision, h]
  · simp [pmiDecision, h]
  · simp [pmiDecision, h]

/-- `pmiDecision` on preference "true": the identity's PMI, no error, no
effect. -/
theorem pmiDecision_true (env : Env) (user : User) (zu : ZoomUser) (args : CommandArgs)
    (h : env.getPMISettingData = some trueString) :
    pmiDecision env user zu args = (zu.pmi, none, []) := by
  simp [pmiDecision, h, trueString, zoomPMISettingValueAsk]

/-- `pmiDecision` on any other concrete preference value: one provider
creation call with the default topic, yielding the provider's result. -/
theorem pmiDecision_default (env : Env) (user : User) (zu : ZoomUser) (args : CommandArgs)
    (v : String) (h : env.getPMISettingData = some v)
    (h1 : v ≠ "") (h2 : v ≠ zoomPMISettingValueAsk) (h3 : v ≠ trueString) :
    pmiDecision env user zu args =
      (env.createMeetingResult.1, env.createMeetingResult.2,
        [Effect.createMeetingWithoutPMI user.id args.channelId defaultMeetingTopic]) := by
  simp [pmiDecision, h, h1, h2, h3]

/-- `runStartCommand` with the membership and recent-meeting guards passed
and the auth guard passed reduces to the preference phase followed by the
post-and-track phase. -/
theorem runStartCommand_ok (env : Env) (args : CommandArgs) (user : User) (topic : String)
    (r : RecentMeeting) (zu : ZoomUser)
    (hm : env.channelMemberOk = true)
    (hr : env.checkPreviousMessages = some r)
    (hf : r.found = false)
    (ha : env.authResult = Except.ok zu) :
    runStartCommand env args user topic =
      finishStart env args user (pmiDecision env user zu args).1
        (pmiDecision env user zu args).2.1 (pmiDecision env user zu args).2.2 := by
  simp [runStartCommand, hm, hr, hf, ha]

/-- `runStartCommand` with the first two guards passed and the auth guard
failing: pending connection recorded (flag false), log-only on store
failure, and the auth message/error returned. -/
theorem runStartCommand_authErr (env : Env) (args : CommandArgs) (user : User) (topic : String)
    (r : RecentMeeting) (ae : AuthError)
    (hm : env.channelMemberOk = true)
    (hr : env.checkPreviousMessages = some r)
    (hf : r.found = false)
    (ha : env.authResult = Except.error ae) :
    runStartCommand env args user topic =
      ((ae.message, ae.err),
        Effect.storeOAuthUserState user.id args.channelId false ::
          (match env.storeOAuthUserStateResult with
            | some _ => [Effect.logWarn "failed to store user state"]
            | none => [])) := by
  simp [runStartCommand, hm, hr, hf, ha]

/-- Claim C7: for every raw command string with at least one
whitespace-delimited token, `parseCommand` returns the first token as `cmd`
and the second token as `action` (empty when there is only one token); the
returned topic is non-empty iff the action equals "start" and at least
three tokens exist, in which case it equals the remaining tokens rejoined
with single spaces. -/
theorem parseCommand_tokens (raw : String) (c : String) (rest : List String)
    (h : stringsFields raw = c :: rest) :
    parseCommand raw =
      some (c, rest.headD "",
        if rest.headD "" = actionStart
        then stringsJoinSpace ((c :: rest).drop 2) else "") ∧
    ((if rest.headD "" = actionStart
        then stringsJoinSpace ((c :: rest).drop 2) else "") ≠ "" ↔
      (rest.headD "" = actionStart ∧ 3 ≤ (c :: rest).length)) := by
  constructor
  · cases rest with
    | nil => simp [parseCommand, h]
    | cons a t => simp [parseCommand, h]
  · cases rest with
    | nil =>
      simp [actionStart]
    | cons a t =>
      by_cases ha : a = actionStart
      · subst ha
        simp only [List.headD_cons, if_pos rfl, List.drop_succ_cons, List.drop_zero,
          List.length_cons, true_iff, true_and]
        cases t with
        | nil => simp [stringsJoinSpace]
        | cons b t2 =>
          have hb : b ∈ stringsFields raw := by
            rw [h]
            simp
          have hbne : b ≠ "" := mem_stringsFields_ne_empty raw b hb
          have hjoin := stringsJoinSpace_ne_empty b t2 hbne
          simp [hjoin]
      · simp [List.headD_cons, ha]

/-- Claim C7 witness: the concrete raw command "/zoom start team sync". -/
theorem parseCommand_tokens_witness :
    stringsFields "/zoom start team sync" = ["/zoom", "start", "team", "sync"] ∧
    (parseCommand "/zoom start team sync" =
      some ("/zoom", (["start", "team", "sync"] : List String).headD "",
        if (["start", "team", "sync"] : List String).headD "" = actionStart
        then stringsJoinSpace (("/zoom" :: ["start", "team", "sync"]).drop 2) else "") ∧
    ((if (["start", "team", "sync"] : List String).headD "" = actionStart
        then stringsJoinSpace (("/zoom" :: ["start", "team", "sync"]).drop 2) else "") ≠ "" ↔
      ((["start", "team", "sync"] : List String).headD "" = actionStart ∧
        3 ≤ ("/zoom" :: ["start", "team", "sync"]).length))) :=
  ⟨by decide, parseCommand_tokens "/zoom start team sync" "/zoom" ["start", "team", "sync"]
    (by decide)⟩

/-- Claim C8 counterexample: on the empty input, `parseCommand` does not
return the all-empty triple: the Go code indexes `split[0]` on the empty
token list, which panics (modelled as `none`), rather than failing
silently. -/
theorem parseCommand_empty_counterexample :
    parseCommand "" ≠ some ("", "", "") ∧ parseCommand "" = none := by
  constructor
  · decide
  · rfl

/-- Claim C8 (amended): on an input that tokenizes to zero
whitespace-delimited tokens, `parseCommand` aborts (Go panics indexing
`split[0]`, modelled as `none`) instead of returning empty fields. -/
theorem parseCommand_empty_aborts (raw : String) (h : stringsFields raw = []) :
    parseCommand raw = none := by
  simp [parseCommand, h]

/-- Claim C8 witness: the empty raw command string. -/
theorem parseCommand_empty_aborts_witness :
    stringsFields "" = [] ∧ parseCommand "" = none :=
  ⟨rfl, parseCommand_empty_aborts "" rfl⟩

/-- Claim C3: when the membership and detector calls succeed and the
recent-meeting detector reports a meeting found, `runStartCommand` creates
no meeting, emits exactly one confirmation post referencing the existing
meeting's link, creator and provider, and returns an empty message with no
error. -/
theorem runStartCommand_dedup (env : Env) (args : CommandArgs) (user : User)
    (topic : String) (r : RecentMeeting)
    (hm : env.channelMemberOk = true)
    (hr : env.checkPreviousMessages = some r)
    (hf : r.found = true) :
    runStartCommand env args user topic =
      (("", none),
        [Effect.postConfirm r.link args.channelId topic user.id args.rootId
          r.creatorName r.provider]) ∧
    (runStartCommand env args user topic).2.countP isCreateEffect = 0 ∧
    (runStartCommand env args user topic).2.countP isPostConfirmEffect = 1 := by
  have hmain : runStartCommand env args user topic =
      (("", none),
        [Effect.postConfirm r.link args.channelId topic user.id args.rootId
          r.creatorName r.provider]) := by
    simp [runStartCommand, hm, hr, hf]
  refine ⟨hmain, ?_, ?_⟩ <;> rw [hmain] <;>
    simp [isCreateEffect, isPostConfirmEffect, List.countP_cons]

/-- Claim C3 witness: a concrete environment whose channel has a recent
meeting. -/
theorem runStartCommand_dedup_witness :
    ({ envBase with checkPreviousMessages := some foundRecent } : Env).channelMemberOk = true ∧
    ({ envBase with checkPreviousMessages := some foundRecent } : Env).checkPreviousMessages =
      some foundRecent ∧
    foundRecent.found = true ∧
    (runStartCommand { envBase with checkPreviousMessages := some foundRecent }
        sampleArgs sampleUser "team sync" =
      (("", none),
        [Effect.postConfirm foundRecent.link sampleArgs.channelId "team sync" sampleUser.id
          sampleArgs.rootId foundRecent.creatorName foundRecent.provider]) ∧
      (runStartCommand { envBase with checkPreviousMessages := some foundRecent }
        sampleArgs sampleUser "team sync").2.countP isCreateEffect = 0 ∧
      (runStartCommand { envBase with checkPreviousMessages := some foundRecent }
        sampleArgs sampleUser "team sync").2.countP isPostConfirmEffect = 1) :=
  ⟨rfl, rfl, rfl,
    runStartCommand_dedup { envBase with checkPreviousMessages := some foundRecent }
      sampleArgs sampleUser "team sync" foundRecent rfl rfl rfl⟩

/-- Claim C5: when the membership and detector guards pass but the user's
provider identity cannot be resolved, `runStartCommand` records a pending
connection with the invoking user's id, the channel id and
`isAccountLevelFlow = false`, returns the authentication-required message
and error unchanged whether or not that store succeeds (a store failure is
only logged), and makes no meeting creation, announcement post or
telemetry emission. -/
theorem runStartCommand_authGuard (env : Env) (args : CommandArgs) (user : User)
    (topic : String) (r : RecentMeeting) (ae : AuthError)
    (hm : env.channelMemberOk = true)
    (hr : env.checkPreviousMessages = some r)
    (hf : r.found = false)
    (ha : env.authResult = Except.error ae) :
    (runStartCommand env args user topic).1 = (ae.message, ae.err) ∧
    Effect.storeOAuthUserState user.id args.channelId false ∈
      (runStartCommand env args user topic).2 ∧
    (∀ e, env.storeOAuthUserStateResult = some e →
      Effect.logWarn "failed to store user state" ∈ (runStartCommand env args user topic).2) ∧
    (runStartCommand env args user topic).2.countP isCreateEffect = 0 ∧
    (runStartCommand env args user topic).2.countP isPostMeetingEffect = 0 ∧
    (runStartCommand env args user topic).2.countP isTrackEffect = 0 := by
  have hmain := runStartCommand_authErr env args user topic r ae hm hr hf ha
  rw [hmain]
  cases hs : env.storeOAuthUserStateResult with
  | some e =>
    refine ⟨rfl, by simp, fun e2 he2 => by simp, ?_, ?_, ?_⟩ <;>
      simp [isCreateEffect, isPostMeetingEffect, isTrackEffect, List.countP_cons]
  | none =>
    refine ⟨rfl, by simp, fun e2 he2 => by simp at he2, ?_, ?_, ?_⟩ <;>
      simp [isCreateEffect, isPostMeetingEffect, isTrackEffect, List.countP_cons]

/-- Claim C5 witness: a concrete unauthenticated invocation. -/
theorem runStartCommand_authGuard_witness :
    ({ envBase with
        authResult := Except.error { message := "Please connect", err := some "not connected" } } :
      Env).channelMemberOk = true ∧
    (runStartCommand
        { envBase with
          authResult := Except.error { message := "Please connect", err := some "not connected" } }
        sampleArgs sampleUser "team sync").1 = ("Please connect", some "not connected") ∧
    Effect.storeOAuthUserState sampleUser.id sampleArgs.channelId false ∈
      (runStartCommand
        { envBase with
          authResult := Except.error { message := "Please connect", err := some "not connected" } }
        sampleArgs sampleUser "team sync").2 := by
  have h := runStartCommand_authGuard
    { envBase with
      authResult := Except.error { message := "Please connect", err := some "not connected" } }
    sampleArgs sampleUser "team sync" sampleRecent
    { message := "Please connect", err := some "not connected" } rfl rfl rfl rfl
  exact ⟨rfl, h.1, h.2.1⟩

/-- Claim C1: with the membership, recent-meeting and auth guards passed,
the preference phase of `runStartCommand` behaves as specified: preference
"true" sets the meeting id to the identity's PMI with no provider creation
call; any other concrete value makes exactly one provider creation call
with the default topic; an unset/"ask" preference or a failed lookup
decides no meeting, returns no error, and emits exactly one ask prompt. -/
theorem runStartCommand_pmi_branches (env : Env) (args : CommandArgs) (user : User)
    (topic : String) (r : RecentMeeting) (zu : ZoomUser)
    (hm : env.channelMemberOk = true)
    (hr : env.checkPreviousMessages = some r)
    (hf : r.found = false)
    (ha : env.authResult = Except.ok zu) :
    (env.getPMISettingData = some trueString →
      (pmiDecision env user zu args).1 = zu.pmi ∧
      (runStartCommand env args user topic).2.countP isCreateEffect = 0) ∧
    (∀ v, env.getPMISettingData = some v → v ≠ "" → v ≠ zoomPMISettingValueAsk →
      v ≠ trueString →
      (runStartCommand env args user topic).2.countP isCreateEffect = 1 ∧
      Effect.createMeetingWithoutPMI user.id args.channelId defaultMeetingTopic ∈
        (runStartCommand env args user topic).2) ∧
    ((env.getPMISettingData = none ∨ env.getPMISettingData = some "" ∨
        env.getPMISettingData = some zoomPMISettingValueAsk) →
      (pmiDecision env user zu args).1 = -1 ∧
      runStartCommand env args user topic =
        (("", none), [Effect.askUserPMIMeeting user.id args.channelId]) ∧
      (runStartCommand env args user topic).2.countP isAskEffect = 1) := by
  have hrun := runStartCommand_ok env args user topic r zu hm hr hf ha
  have hpostC : ∀ uid m cid rid t,
      isCreateEffect (Effect.postMeeting uid m cid rid t) = false := fun _ _ _ _ _ => rfl
  have htrackC : ∀ uid s,
      isCreateEffect (Effect.trackMeetingStart uid s) = false := fun _ _ => rfl
  have hpostA : ∀ uid m cid rid t,
      isAskEffect (Effect.postMeeting uid m cid rid t) = false := fun _ _ _ _ _ => rfl
  have htrackA : ∀ uid s,
      isAskEffect (Effect.trackMeetingStart uid s) = false := fun _ _ => rfl
  refine ⟨?_, ?_, ?_⟩
  · intro hp
    have hd := pmiDecision_true env user zu args hp
    refine ⟨by rw [hd], ?_⟩
    rw [hrun]
    simp only [hd]
    rw [countP_finishStart env args user zu.pmi none [] isCreateEffect hpostC htrackC]
    rfl
  · intro v hp h1 h2 h3
    have hd := pmiDecision_default env user zu args v hp h1 h2 h3
    constructor
    · rw [hrun]
      simp only [hd]
      rw [countP_finishStart env args user env.createMeetingResult.1 env.createMeetingResult.2
        [Effect.createMeetingWithoutPMI user.id args.channelId defaultMeetingTopic]
        isCreateEffect hpostC htrackC]
      simp [isCreateEffect, List.countP_cons]
    · rw [hrun]
      simp only [hd]
      exact mem_finishStart_of_mem env args user env.createMeetingResult.1
        env.createMeetingResult.2
        [Effect.createMeetingWithoutPMI user.id args.channelId defaultMeetingTopic]
        (Effect.createMeetingWithoutPMI user.id args.channelId defaultMeetingTopic)
        (by simp)
  · intro h
    have hd := pmiDecision_ask env user zu args h
    refine ⟨by rw [hd], ?_, ?_⟩
    · rw [hrun]
      simp only [hd]
      exact finishStart_sentinel env args user (-1) none
        [Effect.askUserPMIMeeting user.id args.channelId] rfl rfl
    · rw [hrun]
      simp only [hd]
      rw [countP_finishStart env args user (-1) none
        [Effect.askUserPMIMeeting user.id args.channelId] isAskEffect hpostA htrackA]
      simp [isAskEffect, List.countP_cons]

/-- Claim C1 witness: a concrete environment whose guards all pass; its
stored preference is "false", exercising the creation branch. -/
theorem runStartCommand_pmi_branches_witness :
    envBase.channelMemberOk = true ∧
    envBase.checkPreviousMessages = some sampleRecent ∧
    sampleRecent.found = false ∧
    envBase.authResult = Except.ok sampleZoomUser ∧
    ((runStartCommand envBase sampleArgs sampleUser "team sync").2.countP isCreateEffect = 1 ∧
      Effect.createMeetingWithoutPMI sampleUser.id sampleArgs.channelId defaultMeetingTopic ∈
        (runStartCommand envBase sampleArgs sampleUser "team sync").2) := by
  have h := runStartCommand_pmi_branches envBase sampleArgs sampleUser "team sync"
    sampleRecent sampleZoomUser rfl rfl rfl rfl
  exact ⟨rfl, rfl, rfl, rfl,
    h.2.1 falseString rfl (by decide) (by decide) (by decide)⟩

/-- Environment for the creation-error case: the provider call reports a
concrete meeting id 123 together with a non-nil error. -/
def envCreateErr : Env := { envBase with createMeetingResult := (123, some "boom") }

/-- Claim C2 counterexample: when the creation call reports the concrete
meeting id 123 alongside a non-nil error, the final step of
`runStartCommand` does NOT post the announcement; it returns the generic
creation error (the code's guard is `meetingID == -1 || createMeetingErr
!= nil`, which fires on any non-nil error), contradicting both the
claimed iff (error only when the id is still -1) and the claimed
posting behaviour. -/
theorem runStartCommand_finish_counterexample :
    (pmiDecision envCreateErr sampleUser sampleZoomUser sampleArgs).1 = 123 ∧
    runStartCommand envCreateErr sampleArgs sampleUser "team sync" =
      (("", some "error while create new meeting"),
        [Effect.createMeetingWithoutPMI "user1" "chan1" defaultMeetingTopic]) ∧
    (runStartCommand envCreateErr sampleArgs sampleUser "team sync").2.countP
      isPostMeetingEffect = 0 := by
  refine ⟨?_, ?_, ?_⟩ <;> decide

/-- Claim C2 (amended): in the final post-and-track step, if the meeting id
is still the `-1` sentinel and no creation error occurred, the function
returns an empty message and nil error with no further side effects; it
returns the generic creation error whenever a creation error occurred,
regardless of the meeting id; and it posts the announcement (emitting the
start-telemetry event on successful posting, propagating the posting error
otherwise) exactly when a concrete meeting id was decided and no creation
error occurred. -/
theorem runStartCommand_finish_cases (env : Env) (args : CommandArgs) (user : User)
    (topic : String) (r : RecentMeeting) (zu : ZoomUser)
    (mid : Int) (cerr : Option String) (effs : List Effect)
    (hm : env.channelMemberOk = true)
    (hr : env.checkPreviousMessages = some r)
    (hf : r.found = false)
    (ha : env.authResult = Except.ok zu)
    (hd : pmiDecision env user zu args = (mid, cerr, effs)) :
    (mid = -1 → cerr = none →
      runStartCommand env args user topic = (("", none), effs)) ∧
    (cerr ≠ none →
      runStartCommand env args user topic =
        (("", some "error while create new meeting"), effs)) ∧
    (mid ≠ -1 → cerr = none → env.postMeetingResult = none →
      runStartCommand env args user topic =
        (("", none),
          effs ++ [Effect.postMeeting user.id mid args.channelId args.rootId defaultMeetingTopic,
            Effect.trackMeetingStart args.userId telemetryStartSourceCommand])) ∧
    (∀ e, mid ≠ -1 → cerr = none → env.postMeetingResult = some e →
      runStartCommand env args user topic =
        (("", some e),
          effs ++ [Effect.postMeeting user.id mid args.channelId args.rootId
            defaultMeetingTopic])) := by
  have hrun := runStartCommand_ok env args user topic r zu hm hr hf ha
  rw [hrun]
  simp only [hd]
  exact ⟨fun h1 h2 => finishStart_sentinel env args user mid cerr effs h1 h2,
    fun h => finishStart_error env args user mid cerr effs h,
    fun h1 h2 hp => finishStart_post_ok env args user mid cerr effs h1 h2 hp,
    fun e h1 h2 hp => finishStart_post_err env args user mid cerr effs e h1 h2 hp⟩

/-- Claim C2 witness: a concrete successful creation (meeting id 123, no
error) exercising the post-and-track case. -/
theorem runStartCommand_finish_cases_witness :
    pmiDecision envBase sampleUser sampleZoomUser sampleArgs =
      (123, none, [Effect.createMeetingWithoutPMI "user1" "chan1" defaultMeetingTopic]) ∧
    runStartCommand envBase sampleArgs sampleUser "team sync" =
      (("", none),
        [Effect.createMeetingWithoutPMI "user1" "chan1" defaultMeetingTopic] ++
          [Effect.postMeeting sampleUser.id 123 sampleArgs.channelId sampleArgs.rootId
            defaultMeetingTopic,
          Effect.trackMeetingStart sampleArgs.userId telemetryStartSourceCommand]) := by
  have h := runStartCommand_finish_cases envBase sampleArgs sampleUser "team sync"
    sampleRecent sampleZoomUser 123 none
    [Effect.createMeetingWithoutPMI "user1" "chan1" defaultMeetingTopic]
    rfl rfl rfl rfl (by decide)
  exact ⟨by decide, h.2.2.1 (by decide) rfl rfl⟩

/-- Claim C4: the command "/zoom start team sync" with an authenticated
user, preference "false", no recent meeting, and all collaborator calls
succeeding makes exactly one provider creation call carrying the constant
default topic (not the user-supplied "team sync"), one announcement post,
one telemetry event tagged "command", and returns an empty message and nil
error. -/
theorem executeCommand_start_end_to_end (env : Env) (args : CommandArgs) (user : User)
    (r : RecentMeeting) (zu : ZoomUser) (mid : Int)
    (hcmd : args.command = "/zoom start team sync")
    (hu : env.getUser = some user)
    (hm : env.channelMemberOk = true)
    (hr : env.checkPreviousMessages = some r)
    (hf : r.found = false)
    (ha : env.authResult = Except.ok zu)
    (hp : env.getPMISettingData = some falseString)
    (hc : env.createMeetingResult = (mid, none))
    (hmid : mid ≠ -1)
    (hpost : env.postMeetingResult = none) :
    executeCommand env args =
      some (("", none),
        [Effect.createMeetingWithoutPMI user.id args.channelId defaultMeetingTopic,
          Effect.postMeeting user.id mid args.channelId args.rootId defaultMeetingTopic,
          Effect.trackMeetingStart args.userId telemetryStartSourceCommand]) ∧
    defaultMeetingTopic ≠ "team sync" ∧
    (match executeCommand env args with
      | some res => res.2.countP isCreateEffect = 1 ∧
          res.2.countP isPostMeetingEffect = 1 ∧
          res.2.countP isTrackEffect = 1
      | none => False) := by
  have hdispatch : executeCommand env args = some (runStartCommand env args user "team sync") := by
    have hparse : parseCommand "/zoom start team sync" = some ("/zoom", "start", "team sync") := by
      decide
    unfold executeCommand
    rw [hcmd, hparse]
    simp [actionConnect, actionStart, hu]
  have hd : pmiDecision env user zu args =
      (mid, none, [Effect.createMeetingWithoutPMI user.id args.channelId defaultMeetingTopic]) := by
    rw [pmiDecision_default env user zu args falseString hp (by decide) (by decide) (by decide),
      hc]
  have hstart : runStartCommand env args user "team sync" =
      (("", none),
        [Effect.createMeetingWithoutPMI user.id args.channelId defaultMeetingTopic,
          Effect.postMeeting user.id mid args.channelId args.rootId defaultMeetingTopic,
          Effect.trackMeetingStart args.userId telemetryStartSourceCommand]) := by
    rw [runStartCommand_ok env args user "team sync" r zu hm hr hf ha]
    simp only [hd]
    exact finishStart_post_ok env args user mid none
      [Effect.createMeetingWithoutPMI user.id args.channelId defaultMeetingTopic]
      hmid rfl hpost
  rw [hdispatch, hstart]
  refine ⟨rfl, by decide, ?_⟩
  simp [isCreateEffect, isPostMeetingEffect, isTrackEffect, List.countP_cons]

/-- Claim C4 witness: the concrete invocation on `envBase`. -/
theorem executeCommand_start_end_to_end_witness :
    sampleArgs.command = "/zoom start team sync" ∧
    envBase.getUser = some sampleUser ∧
    envBase.getPMISettingData = some falseString ∧
    envBase.createMeetingResult = (123, none) ∧
    (executeCommand envBase sampleArgs =
      some (("", none),
        [Effect.createMeetingWithoutPMI sampleUser.id sampleArgs.channelId defaultMeetingTopic,
          Effect.postMeeting sampleUser.id 123 sampleArgs.channelId sampleArgs.rootId
            defaultMeetingTopic,
          Effect.trackMeetingStart sampleArgs.userId telemetryStartSourceCommand]) ∧
      defaultMeetingTopic ≠ "team sync" ∧
      (match executeCommand envBase sampleArgs with
        | some res => res.2.countP isCreateEffect = 1 ∧
            res.2.countP isPostMeetingEffect = 1 ∧
            res.2.countP isTrackEffect = 1
        | none => False)) :=
  ⟨rfl, rfl, rfl, rfl,
    executeCommand_start_end_to_end envBase sampleArgs sampleUser sampleRecent sampleZoomUser
      123 rfl rfl rfl rfl rfl rfl rfl rfl (by decide) rfl⟩

/-- Environment in which the pending-connection store fails. -/
def envStoreFail : Env := { envBase with storeOAuthUserStateResult := some "db down" }

/-- Claim C6 counterexample: in `runConnectCommand` (user-level branch), a
failure of the pending-connection store changes the returned message from
the OAuth prompt to an empty message and turns the command into a failure
with a wrapped "cannot store state" error — the failure is escalated, not
merely logged. -/
theorem runConnectCommand_store_counterexample :
    (runConnectCommand envStoreFail sampleUser sampleArgs).1 =
      ("", some ("cannot store state: " ++ "db down")) ∧
    (runConnectCommand envBase sampleUser sampleArgs).1 =
      (oAuthPromptMsg "https://mm.example.com", none) := by
  refine ⟨?_, ?_⟩ <;> decide

/-- Claim C6 (amended): a failure of the pending-connection store is
log-only in `runStartCommand`'s auth guard (the returned message and error
are unchanged), but in both branches of `runConnectCommand` the same
failure aborts the command, returning an empty message and a wrapped
"cannot store state" error instead of the OAuth prompt. -/
theorem storeState_failure_handling (env : Env) (args extra : CommandArgs) (user : User)
    (topic : String) (r : RecentMeeting) (ae : AuthError) (e : String)
    (hs : env.storeOAuthUserStateResult = some e) :
    (env.channelMemberOk = true → env.checkPreviousMessages = some r → r.found = false →
      env.authResult = Except.error ae →
      runStartCommand env args user topic =
        ((ae.message, ae.err),
          [Effect.storeOAuthUserState user.id args.channelId false,
            Effect.logWarn "failed to store user state"])) ∧
    (canConnect env user = true → env.accountLevelApp = true →
      env.superuserTokenPresent = false →
      runConnectCommand env user extra =
        (("", some ("cannot store state: " ++ e)),
          [Effect.storeOAuthUserState user.id extra.channelId true])) ∧
    (canConnect env user = true → env.accountLevelApp = false →
      env.fetchOAuthUserInfoOk = false →
      runConnectCommand env user extra =
        (("", some ("cannot store state: " ++ e)),
          [Effect.storeOAuthUserState user.id extra.channelId true])) := by
  refine ⟨?_, ?_, ?_⟩
  · intro hm hr hf ha
    rw [runStartCommand_authErr env args user topic r ae hm hr hf ha, hs]
  · intro hcc hacc hsup
    simp [runConnectCommand, hcc, hacc, hsup, hs]
  · intro hcc hacc hinfo
    simp [runConnectCommand, hcc, hacc, hinfo, hs]

/-- Claim C6 witness: a concrete environment in which the store fails, the
auth guard fails, and the user-level connect branch is reachable. -/
theorem storeState_failure_handling_witness :
    ({ envStoreFail with
        authResult := Except.error { message := "Please connect", err := some "oauth" } } :
      Env).storeOAuthUserStateResult = some "db down" ∧
    runStartCommand
      { envStoreFail with
        authResult := Except.error { message := "Please connect", err := some "oauth" } }
      sampleArgs sampleUser "team sync" =
      (("Please connect", some "oauth"),
        [Effect.storeOAuthUserState sampleUser.id sampleArgs.channelId false,
          Effect.logWarn "failed to store user state"]) ∧
    runConnectCommand
      { envStoreFail with
        authResult := Except.error { message := "Please connect", err := some "oauth" } }
      sampleUser sampleArgs =
      (("", some ("cannot store state: " ++ "db down")),
        [Effect.storeOAuthUserState sampleUser.id sampleArgs.channelId true]) := by
  have h := storeState_failure_handling
    { envStoreFail with
      authResult := Except.error { message := "Please connect", err := some "oauth" } }
    sampleArgs sampleArgs sampleUser "team sync" sampleRecent
    { message := "Please connect", err := some "oauth" } "db down" rfl
  exact ⟨rfl, h.1 rfl rfl rfl rfl, h.2.2 (by decide) rfl rfl⟩

/-- Claim C9: `runPMISettingCommand` rejects any value outside
{"true","false","ask"} with an "Unknown setting option" message, nil
error and no preference write; with "true" it makes exactly one preference
write storing "true" under category "plugin:zoom" and name "use-pmi" and
returns a success message containing "true"; a failed write yields the
fixed error string with nil error. -/
theorem runPMISettingCommand_validation (env : Env) (user : User) (v : String) :
    (v ≠ trueString → v ≠ falseString → v ≠ zoomPMISettingValueAsk →
      runPMISettingCommand env v user =
        (("Unknown setting option " ++ v, none), [])) ∧
    (env.updatePreferencesOk = true →
      runPMISettingCommand env trueString user =
        (("Update successfully, use_pmi: " ++ trueString, none),
          [Effect.updatePreferences user.id zoomPreferenceCategory zoomPMISettingName
            trueString])) ∧
    (env.updatePreferencesOk = false →
      runPMISettingCommand env trueString user =
        ((preferenceUpdateError, none),
          [Effect.updatePreferences user.id zoomPreferenceCategory zoomPMISettingName
            trueString])) := by
  refine ⟨?_, ?_, ?_⟩
  · intro h1 h2 h3
    simp [runPMISettingCommand, h1, h2, h3]
  · intro hok
    simp [runPMISettingCommand, hok, trueString, falseString, zoomPMISettingValueAsk]
  · intro hfail
    simp [runPMISettingCommand, hfail, trueString, falseString, zoomPMISettingValueAsk]

/-- Claim C9 witness: the value "foo" is rejected without a write and the
value "true" is written, at a concrete environment. -/
theorem runPMISettingCommand_validation_witness :
    (("foo" : String) ≠ trueString ∧ ("foo" : String) ≠ falseString ∧
      ("foo" : String) ≠ zoomPMISettingValueAsk) ∧
    runPMISettingCommand envBase "foo" sampleUser =
      (("Unknown setting option " ++ "foo", none), []) ∧
    runPMISettingCommand envBase trueString sampleUser =
      (("Update successfully, use_pmi: " ++ trueString, none),
        [Effect.updatePreferences sampleUser.id zoomPreferenceCategory zoomPMISettingName
          trueString]) := by
  have h := runPMISettingCommand_validation envBase sampleUser "foo"
  exact ⟨⟨by decide, by decide, by decide⟩,
    h.1 (by decide) (by decide) (by decide), h.2.1 rfl⟩

/-- Every effect emitted by the preference phase is an ask prompt or a
creation call. -/
theorem mem_pmiDecision (env : Env) (user : User) (zu : ZoomUser) (args : CommandArgs)
    (x : Effect) (hx : x ∈ (pmiDecision env user zu args).2.2) :
    isAskEffect x = true ∨ isCreateEffect x = true := by
  unfold pmiDecision at hx
  split at hx
  · split at hx
    · simp at hx
      subst hx
      exact Or.inl rfl
    · split at hx
      · simp at hx
      · simp at hx
        subst hx
        exact Or.inr rfl
  · simp at hx
    subst hx
    exact Or.inl rfl

/-- Claim C10: every pending-connection store emitted by
`runConnectCommand` carries `isAccountLevelFlow = true` (on both its
account-level and user-level paths), while every one emitted by
`runStartCommand` carries `isAccountLevelFlow = false`; both stores are
actually reachable. The flag therefore records which command initiated the
flow, not whether the deployment is account-level. -/
theorem storeState_flag_semantics (env : Env) (user : User) (extra args : CommandArgs)
    (topic : String) (uid cid : String) (b : Bool) :
    (Effect.storeOAuthUserState uid cid b ∈ (runConnectCommand env user extra).2 →
      b = true) ∧
    (Effect.storeOAuthUserState uid cid b ∈ (runStartCommand env args user topic).2 →
      b = false) ∧
    (canConnect env user = true → env.superuserTokenPresent = false →
      env.fetchOAuthUserInfoOk = false →
      Effect.storeOAuthUserState user.id extra.channelId true ∈
        (runConnectCommand env user extra).2) ∧
    (env.channelMemberOk = true →
      ∀ r, env.checkPreviousMessages = some r → r.found = false →
      ∀ ae, env.authResult = Except.error ae →
      Effect.storeOAuthUserState user.id args.channelId false ∈
        (runStartCommand env args user topic).2) := by
  refine ⟨?_, ?_, ?_, ?_⟩
  · intro hmem
    cases hcc : canConnect env user with
    | false => simp [runConnectCommand, hcc] at hmem
    | true =>
      cases hacc : env.accountLevelApp with
      | true =>
        cases hsup : env.superuserTokenPresent with
        | true => simp [runConnectCommand, hcc, hacc, hsup] at hmem
        | false =>
          cases hst : env.storeOAuthUserStateResult with
          | some e =>
            simp [runConnectCommand, hcc, hacc, hsup, hst] at hmem
            exact hmem.2.2
          | none =>
            simp [runConnectCommand, hcc, hacc, hsup, hst] at hmem
            exact hmem.2.2
      | false =>
        cases hinfo : env.fetchOAuthUserInfoOk with
        | true => simp [runConnectCommand, hcc, hacc, hinfo] at hmem
        | false =>
          cases hst : env.storeOAuthUserStateResult with
          | some e =>
            simp [runConnectCommand, hcc, hacc, hinfo, hst] at hmem
            exact hmem.2.2
          | none =>
            simp [runConnectCommand, hcc, hacc, hinfo, hst] at hmem
            exact hmem.2.2
  · intro hmem
    cases hm : env.channelMemberOk with
    | false => simp [runStartCommand, hm] at hmem
    | true =>
      cases hr : env.checkPreviousMessages with
      | none => simp [runStartCommand, hm, hr] at hmem
      | some r =>
        cases hf : r.found with
        | true => simp [runStartCommand, hm, hr, hf] at hmem
        | false =>
          cases ha : env.authResult with
          | error ae =>
            cases hst : env.storeOAuthUserStateResult with
            | some e =>
              simp [runStartCommand, hm, hr, hf, ha, hst] at hmem
              exact hmem.2.2
            | none =>
              simp [runStartCommand, hm, hr, hf, ha, hst] at hmem
              exact hmem.2.2
          | ok zu =>
            have hrun := runStartCommand_ok env args user topic r zu hm hr hf ha
            rw [hrun] at hmem
            rcases mem_finishStart _ _ _ _ _ _ _ hmem with h | h | h
            · rcases mem_pmiDecision _ _ _ _ _ h with h2 | h2
              · simp [isAskEffect] at h2
              · simp [isCreateEffect] at h2
            · simp [isPostMeetingEffect] at h
            · simp [isTrackEffect] at h
  · intro hcc hsup hinfo
    cases hacc : env.accountLevelApp <;> cases hst : env.storeOAuthUserStateResult <;>
      simp [runConnectCommand, hcc, hacc, hsup, hinfo, hst]
  · intro hm r hr hf ae ha
    rw [runStartCommand_authErr env args user topic r ae hm hr hf ha]
    exact List.mem_cons_self _ _

/-- Claim C10 witness: the stores are reachable with the claimed flags at
concrete environments. -/
theorem storeState_flag_semantics_witness :
    canConnect envBase sampleUser = true ∧
    Effect.storeOAuthUserState sampleUser.id sampleArgs.channelId true ∈
      (runConnectCommand envBase sampleUser sampleArgs).2 ∧
    Effect.storeOAuthUserState sampleUser.id sampleArgs.channelId false ∈
      (runStartCommand
        { envBase with authResult := Except.error { message := "Please connect", err := none } }
        sampleArgs sampleUser "team sync").2 := by
  have h1 := storeState_flag_semantics envBase sampleUser sampleArgs sampleArgs
    "team sync" "x" "y" true
  have h2 := storeState_flag_semantics
    { envBase with authResult := Except.error { message := "Please connect", err := none } }
    sampleUser sampleArgs sampleArgs "team sync" "x" "y" false
  exact ⟨rfl, h1.2.2.1 rfl rfl rfl,
    h2.2.2.2 rfl sampleRecent rfl rfl { message := "Please connect", err := none } rfl⟩
